import Mathlib

/-!
Shallow embedding of the gym booking/subscription backend (files
`client.py`, `models.py`) and verification of the frozen claims about it.

Time model: every Python `datetime` handled by the core is (after the
code's own normalization) a UTC instant; we embed it as the number of
microseconds since the epoch, a `Nat`.  Python's component accessors,
`timedelta` arithmetic and comparisons coincide with arithmetic on this
representation (`timedelta(minutes=15)` is 900000000 µs,
`timedelta(days=d)` is `d * 86400000000` µs).  The `tzinfo` replace /
astimezone dances in the source are identities in this model and are
noted where they occur.

Floating-point catalog fields (`price`, `rating`) flow through the code
verbatim and are never computed with by the operations the claims
concern; they are omitted from the embedded rows.
-/

/-- Python `datetime.minute` of a UTC instant. -/
def dt_minute (t : Nat) : Nat := t / 60000000 % 60

/-- Python `datetime.second` of a UTC instant. -/
def dt_second (t : Nat) : Nat := t / 1000000 % 60

/-- Python `datetime.microsecond` of a UTC instant. -/
def dt_microsecond (t : Nat) : Nat := t % 1000000

/-- Python `datetime.hour` of a UTC instant. -/
def dt_hour (t : Nat) : Nat := t / 3600000000 % 24

/-- Python `datetime.date()` of a UTC instant: days since the epoch. -/
def dt_date (t : Nat) : Nat := t / 86400000000

/-- Python f-string `f"{n:02d}"`: zero-padded two-digit rendering. -/
def two_digit (n : Nat) : String :=
  if n < 10 then "0" ++ toString n else toString n

/-- Embedding of `generate_time_slots` from `client.py` lines 21-30: for each hour in
`range(start_hour, end_hour)` and each minute in `[0, 15, 30, 45]`,
the label `f"{hour:02d}:{minute:02d}"`.  The source's defaults are
`start_hour = 9`, `end_hour = 21`. -/
def generate_time_slots (start_hour end_hour : Nat) : List String :=
  (List.range' start_hour (end_hour - start_hour)).flatMap
    (fun hour => [0, 15, 30, 45].map
      (fun minute => two_digit hour ++ ":" ++ two_digit minute))

/-- Numeric value of a digit character. -/
def digit_val (c : Char) : Nat := c.toNat - 48

/-- Decode an `"HH:MM"` label to minutes after midnight (the inverse of the
label formatting; used to state ordering of labels and to embed
`hour, minute = map(int, time_str.split(':'))` from `client.py` line 219). -/
def label_minutes (s : String) : Nat :=
  match s.toList with
  | [h1, h2, _, m1, m2] =>
      60 * (10 * digit_val h1 + digit_val h2) + (10 * digit_val m1 + digit_val m2)
  | _ => 0

/-- The `f"{session_time.hour:02d}:{session_time.minute:02d}"` label of an
instant (`client.py` line 212). -/
def time_label (t : Nat) : String :=
  two_digit (dt_hour t) ++ ":" ++ two_digit (dt_minute t)

/-- Row of the `users` table (`models.py` lines 20-34); columns the core
reads or writes. -/
structure Users where
  id : Nat
  username : String
  email : String
  role : String
  subscription_type : Option String
  subscription_expires_at : Option Nat
  subscription_active : Bool
deriving DecidableEq

/-- Row of the `trainers` table (`models.py` lines 37-51); columns the core
reads. -/
structure Trainers where
  id : Nat
  name : String
  specialization : String
deriving DecidableEq

/-- Row of the `subscriptions` table (`models.py` lines 54-62); columns the
core reads (`price` and `visits_limit` are carried verbatim, never
computed with). -/
structure Subscriptions where
  id : Nat
  name : String
  subscription_type : String
  duration_days : Nat
deriving DecidableEq

/-- Row of the `sessions` table (`models.py` lines 65-73). -/
structure Sessions where
  id : Nat
  trainer_id : Nat
  client_id : Nat
  session_time : Nat
  status : String
deriving DecidableEq

/-- Row of the `visit_history` table (`models.py` lines 80-88). -/
structure VisitHistory where
  user_id : Nat
  trainer_id : Nat
  session_id : Nat
  trainer_name : String
  visit_date : Nat
deriving DecidableEq

/-- Row of the `subscription_purchases` table (`models.py` lines 94-101);
the `price` column is carried verbatim and omitted. -/
structure SubscriptionPurchases where
  user_id : Nat
  subscription_id : Nat
  purchased_at : Nat
deriving DecidableEq

/-- The transactional store.  `next_session_id` models the autoincrement
primary key handed out on insert.  Note: `models.py` declares NO
uniqueness constraint on `sessions` (in particular none on
`(trainer_id, session_time)`). -/
structure Db where
  users : List Users
  trainers : List Trainers
  subscriptions : List Subscriptions
  sessions : List Sessions
  visit_history : List VisitHistory
  subscription_purchases : List SubscriptionPurchases
  next_session_id : Nat
deriving DecidableEq

/-- The identity dict produced by `auth.get_user` (fields the client
endpoints read: `user['id']`, `user['role']`). -/
structure AuthUser where
  id : Nat
  role : String
deriving DecidableEq

/-- An `HTTPException(status_code, detail)` raised by an endpoint. -/
structure HTTPException where
  status_code : Nat
  detail : String
deriving DecidableEq

/-- Value `UserRole.CLIENT.value` from `models.py`. -/
def UserRole_CLIENT : String := "client"

deriving instance DecidableEq for Except

/-- Detail of the 403 raised by every client endpoint on a non-client role. -/
def msg_forbidden : String := "Доступ тільки для клієнтів"

/-- Detail of the 404 raised when the trainer lookup fails. -/
def msg_trainer_not_found : String := "Тренер не знайдений"

/-- Detail of the 400 raised when the caller has no active subscription
(`client.py` line 262). -/
def msg_no_subscription : String :=
  "У вас немає активного абонемента. Придбайте абонемент для запису на заняття."

/-- Detail of the 400 raised when the caller's subscription has expired
(`client.py` line 276). -/
def msg_expired : String := "Ваш абонемент закінчився. Придбайте новий абонемент."

/-- Detail of the 400 raised for a session time in the past
(`client.py` line 288). -/
def msg_past : String := "Не можна записатись на час в минулому"

/-- Detail raised for a session time not on a 15-minute boundary
(`client.py` lines 64 and 294). -/
def msg_quantize : String :=
  "Час має бути кратним 15 хвилинам (наприклад: 12:00, 12:15, 12:30, 15:45)"

/-- Detail of the 409 raised on a slot conflict (`client.py` line 310). -/
def msg_conflict : String := "Цей час вже зайнятий. Оберіть інший час."

/-- Detail of the 404 raised when the session lookup fails
(`client.py` line 507). -/
def msg_session_not_found : String := "Сесія не знайдена"

/-- Detail of the 400 raised on completing an already completed session
(`client.py` line 513). -/
def msg_already_completed : String := "Сесія вже завершена"

/-- Detail of the 404 raised when the subscription plan lookup fails
(`client.py` line 374). -/
def msg_plan_not_found : String := "Абонемент не знайдений"

/-- Mutation of the row returned by SQLAlchemy's `.first()`: the first list
element satisfying `p` is replaced by its image under `f`. -/
def update_first (p : α → Bool) (f : α → α) : List α → List α
  | [] => []
  | x :: xs => if p x then f x :: xs else x :: update_first p f xs

/-- The conflict filter of `client.py` lines 300-305: same trainer,
`session_time` in `[t, t + 15min)`, status `"booked"`. -/
def conflict_pred (trainer_id : Nat) (t : Nat) (s : Sessions) : Bool :=
  s.trainer_id == trainer_id && decide (t ≤ s.session_time)
    && decide (s.session_time < t + 900000000) && s.status == "booked"

/-- Request body of `POST /client/book-session` (`client.py` lines 56-58). -/
structure SessionRequest where
  trainer_id : Nat
  session_time : Nat
deriving DecidableEq

/-- Embedding of `SessionRequest.validate_session_time` (`client.py` lines 60-68): a
pydantic field validator.  A minute not on a 15-minute boundary raises
`ValueError`; otherwise nonzero seconds or microseconds are silently
zeroed by `v.replace(minute=(v.minute // 15) * 15, second=0, microsecond=0)`
(in microseconds: subtract the sub-minute part and the minute excess). -/
def validate_session_time (v : Nat) : Except String Nat :=
  if dt_minute v % 15 ≠ 0 then
    .error msg_quantize
  else if dt_second v ≠ 0 ∨ dt_microsecond v ≠ 0 then
    .ok (v - v % 60000000 - dt_minute v % 15 * 60000000)
  else
    .ok v

/-- Response body of `POST /client/book-session` (`client.py` lines 95-100
and 328-334). -/
structure BookingResponse where
  id : Nat
  trainer_id : Nat
  trainer_name : String
  session_time : Nat
  status : String
deriving DecidableEq

/-- Embedding of `book_session` from `client.py` lines 235-334, after pydantic
validation of the request body.  `now_utc` is `datetime.now(timezone.utc)`.
The timezone normalizations at lines 267-271, 279-283 and 313-315 are
identities in the UTC-microsecond model.  A token whose user id is not in
the store would make line 259 raise `AttributeError` on `None`; that
uncaught crash is rendered as a 500. -/
def book_session (db : Db) (now_utc : Nat) (user : AuthUser)
    (session_request : SessionRequest) : Except HTTPException (Db × BookingResponse) :=
  if user.role ≠ UserRole_CLIENT then
    .error ⟨403, msg_forbidden⟩
  else
    match db.trainers.find? (fun t => t.id == session_request.trainer_id) with
    | none => .error ⟨404, msg_trainer_not_found⟩
    | some trainer =>
      match db.users.find? (fun u => u.id == user.id) with
      | none => .error ⟨500, "AttributeError"⟩
      | some db_user =>
        match db_user.subscription_active, db_user.subscription_expires_at with
        | false, _ => .error ⟨400, msg_no_subscription⟩
        | true, none => .error ⟨400, msg_no_subscription⟩
        | true, some expires_at_utc =>
          if expires_at_utc < now_utc then
            .error ⟨400, msg_expired⟩
          else if session_request.session_time < now_utc then
            .error ⟨400, msg_past⟩
          else if dt_minute session_request.session_time % 15 ≠ 0 then
            .error ⟨400, msg_quantize⟩
          else
            match db.sessions.find?
                (conflict_pred session_request.trainer_id session_request.session_time) with
            | some _ => .error ⟨409, msg_conflict⟩
            | none =>
              let new_session : Sessions :=
                ⟨db.next_session_id, session_request.trainer_id, user.id,
                 session_request.session_time, "booked"⟩
              .ok ({ db with sessions := db.sessions ++ [new_session],
                             next_session_id := db.next_session_id + 1 },
                   ⟨new_session.id, new_session.trainer_id, trainer.name,
                    new_session.session_time, new_session.status⟩)

/-- The full HTTP pipeline of `POST /client/book-session`: FastAPI first
runs the pydantic validator on the request body (a `ValueError` there
surfaces as a 422 validation error), then calls the endpoint. -/
def book_session_endpoint (db : Db) (now_utc : Nat) (user : AuthUser)
    (trainer_id : Nat) (raw_session_time : Nat) :
    Except HTTPException (Db × BookingResponse) :=
  match validate_session_time raw_session_time with
  | .error msg => .error ⟨422, msg⟩
  | .ok t => book_session db now_utc user ⟨trainer_id, t⟩

/-- Element of the response of `GET .../available-slots` (`client.py`
lines 114-117). -/
structure TimeSlotResponse where
  time : String
  date_time : Nat
  available : Bool
deriving DecidableEq

/-- Embedding of `get_available_slots` from `client.py` lines 156-232.  The date-string
parsing (lines 179-185) is outside the model: `selected_date` is the
already-parsed calendar date, as days since the epoch.  `time.min` is
00:00:00 and `time.max` is 23:59:59.999999, so the query bound
`end_of_day + timedelta(days=1)` reaches into the FOLLOWING day. -/
def get_available_slots (db : Db) (now : Nat) (user : AuthUser)
    (trainer_id : Nat) (selected_date : Nat) :
    Except HTTPException (List TimeSlotResponse) :=
  if user.role ≠ UserRole_CLIENT then
    .error ⟨403, msg_forbidden⟩
  else
    match db.trainers.find? (fun t => t.id == trainer_id) with
    | none => .error ⟨404, msg_trainer_not_found⟩
    | some _ =>
      if selected_date < dt_date now then
        .error ⟨400, "Не можна вибрати дату в минулому"⟩
      else
        let time_slots := generate_time_slots 9 21
        let start_of_day := selected_date * 86400000000
        let end_of_day := selected_date * 86400000000 + 86399999999
        let booked_sessions := db.sessions.filter (fun s =>
          s.trainer_id == trainer_id
            && decide (start_of_day ≤ s.session_time)
            && decide (s.session_time < end_of_day + 86400000000)
            && s.status == "booked")
        let booked_times := booked_sessions.map (fun s => time_label s.session_time)
        .ok (time_slots.map (fun time_str =>
          let slot_datetime := selected_date * 86400000000 + label_minutes time_str * 60000000
          let is_booked := booked_times.contains time_str
          let is_past := slot_datetime < now
          TimeSlotResponse.mk time_str slot_datetime (!is_booked && !is_past)))

/-- Request body of `POST /client/purchase-subscription`
(`client.py` lines 82-83). -/
structure PurchaseRequest where
  subscription_id : Nat
deriving DecidableEq

/-- Response body of `POST /client/purchase-subscription`
(`client.py` lines 411-415). -/
structure PurchaseResponse where
  message : String
  subscription_type : Option String
  expires_at : Option Nat
deriving DecidableEq

/-- Embedding of `purchase_subscription` from `client.py` lines 352-415.  The timezone
normalization at lines 382-386 and the `replace(tzinfo=None)` strips are
identities in the UTC-microsecond model; `timedelta(days=duration_days)`
is `duration_days * 86400000000` µs. -/
def purchase_subscription (db : Db) (now_utc : Nat) (user : AuthUser)
    (purchase_request : PurchaseRequest) : Except HTTPException (Db × PurchaseResponse) :=
  if user.role ≠ UserRole_CLIENT then
    .error ⟨403, msg_forbidden⟩
  else
    match db.subscriptions.find? (fun s => s.id == purchase_request.subscription_id) with
    | none => .error ⟨404, msg_plan_not_found⟩
    | some subscription =>
      match db.users.find? (fun u => u.id == user.id) with
      | none => .error ⟨500, "AttributeError"⟩
      | some db_user =>
        let new_expires_at :=
          match db_user.subscription_active, db_user.subscription_expires_at with
          | true, some expires_at_utc =>
            if now_utc < expires_at_utc then
              expires_at_utc + subscription.duration_days * 86400000000
            else
              now_utc + subscription.duration_days * 86400000000
          | _, _ => now_utc + subscription.duration_days * 86400000000
        let updated_user : Users :=
          { db_user with
              subscription_expires_at := some new_expires_at,
              subscription_type := some subscription.subscription_type,
              subscription_active := true }
        let purchase : SubscriptionPurchases := ⟨user.id, subscription.id, now_utc⟩
        let db' : Db :=
          { db with
              users := update_first (fun u => u.id == user.id) (fun _ => updated_user) db.users,
              subscription_purchases := db.subscription_purchases ++ [purchase] }
        .ok (db', ⟨"Абонемент успішно придбано", updated_user.subscription_type,
                   updated_user.subscription_expires_at⟩)

/-- Response body of `POST /client/complete-session/{session_id}`
(`client.py` lines 530-534). -/
structure CompleteResponse where
  message : String
  session_id : Nat
  visit_added : Bool
deriving DecidableEq

/-- Embedding of `complete_session` from `client.py` lines 488-534.  `now_utc` is the
`datetime.now(timezone.utc)` stamped on the visit record. -/
def complete_session (db : Db) (now_utc : Nat) (user : AuthUser)
    (session_id : Nat) : Except HTTPException (Db × CompleteResponse) :=
  if user.role ≠ UserRole_CLIENT then
    .error ⟨403, msg_forbidden⟩
  else
    match db.sessions.find? (fun s => s.id == session_id && s.client_id == user.id) with
    | none => .error ⟨404, msg_session_not_found⟩
    | some session =>
      if session.status = "completed" then
        .error ⟨400, msg_already_completed⟩
      else
        let trainer_name :=
          match db.trainers.find? (fun t => t.id == session.trainer_id) with
          | some trainer => trainer.name
          | none => "Невідомий тренер"
        let visit : VisitHistory :=
          ⟨user.id, session.trainer_id, session.id, trainer_name, now_utc⟩
        let db' : Db :=
          { db with
              sessions := update_first
                (fun s => s.id == session_id && s.client_id == user.id)
                (fun s => { s with status := "completed" }) db.sessions,
              visit_history := db.visit_history ++ [visit] }
        .ok (db', ⟨"Сесія успішно завершена", session.id, true⟩)

/-- Membership of a session in the 15-minute window of a trainer starting
at `x`: booked, same trainer, `session_time` in `[x, x + 15min)`. -/
def window_pred (trainer_id : Nat) (x : Nat) (s : Sessions) : Bool :=
  s.trainer_id == trainer_id && s.status == "booked"
    && decide (x ≤ s.session_time) && decide (s.session_time < x + 900000000)

/-- Booked sessions of a trainer whose `session_time` lies in the
15-minute window starting at `x`. -/
def booked_in_window (db : Db) (trainer_id : Nat) (x : Nat) : List Sessions :=
  db.sessions.filter (window_pred trainer_id x)

theorem window_pred_iff {trainer_id : Nat} {x : Nat} {s : Sessions} :
    window_pred trainer_id x s = true ↔
      s.trainer_id = trainer_id ∧ s.status = "booked"
        ∧ x ≤ s.session_time ∧ s.session_time < x + 900000000 := by
  simp [window_pred, and_assoc]

theorem conflict_pred_iff {trainer_id : Nat} {t : Nat} {s : Sessions} :
    conflict_pred trainer_id t s = true ↔
      s.trainer_id = trainer_id ∧ t ≤ s.session_time
        ∧ s.session_time < t + 900000000 ∧ s.status = "booked" := by
  simp [conflict_pred, and_assoc]

/-- Spec invariant 2: for a given trainer, at most one `booked` session in
any given 15-minute window. -/
def no_double_booking (db : Db) : Prop :=
  ∀ trainer_id x, (booked_in_window db trainer_id x).length ≤ 1

/-- Spec invariant 1: stored session times are quantized to 15-minute
boundaries (established by the request validator together with the
booking endpoint, the only writer of sessions). -/
def sessions_quantized (db : Db) : Prop :=
  ∀ s ∈ db.sessions, s.session_time % 900000000 = 0

theorem quantized_minute {t : Nat} (h : t % 900000000 = 0) :
    dt_minute t % 15 = 0 := by
  obtain ⟨k, hk⟩ := Nat.dvd_of_mod_eq_zero h
  subst hk
  unfold dt_minute
  have h1 : 900000000 * k / 60000000 = 15 * k := by omega
  rw [h1]
  omega

theorem quantized_window_eq {s t x : Nat} (hs : s % 900000000 = 0)
    (ht : t % 900000000 = 0) (h1 : x ≤ s) (h2 : s < x + 900000000)
    (h3 : x ≤ t) (h4 : t < x + 900000000) : s = t := by omega

theorem find?_update_first {p : α → Bool} {f : α → α} {l : List α} {x : α}
    (hfind : l.find? p = some x) (hpf : p (f x) = true) :
    (update_first p f l).find? p = some (f x) := by
  induction l with
  | nil => simp [List.find?] at hfind
  | cons a as ih =>
    by_cases hpa : p a = true
    · rw [List.find?_cons_of_pos _ hpa] at hfind
      injection hfind with h
      subst h
      simp [update_first, hpa, List.find?_cons_of_pos _ hpf]
    · rw [List.find?_cons_of_neg _ hpa] at hfind
      simp only [update_first, if_neg hpa]
      rw [List.find?_cons_of_neg _ hpa]
      exact ih hfind

/-- The session row inserted by a successful `book_session` call
(`client.py` lines 317-322). -/
def inserted_session (db : Db) (user : AuthUser) (req : SessionRequest) : Sessions :=
  ⟨db.next_session_id, req.trainer_id, user.id, req.session_time, "booked"⟩

/-- The store after a successful `book_session` call. -/
def inserted_db (db : Db) (user : AuthUser) (req : SessionRequest) : Db :=
  { db with sessions := db.sessions ++ [inserted_session db user req],
            next_session_id := db.next_session_id + 1 }

theorem book_session_insert
    {db : Db} {now : Nat} {user : AuthUser} {req : SessionRequest}
    {trainer : Trainers} {db_user : Users} {e : Nat}
    (hrole : user.role = UserRole_CLIENT)
    (htr : db.trainers.find? (fun t => t.id == req.trainer_id) = some trainer)
    (hu : db.users.find? (fun u => u.id == user.id) = some db_user)
    (hact : db_user.subscription_active = true)
    (hexp : db_user.subscription_expires_at = some e)
    (he : now ≤ e)
    (hfut : now ≤ req.session_time)
    (hmin : dt_minute req.session_time % 15 = 0)
    (hconf : db.sessions.find? (conflict_pred req.trainer_id req.session_time) = none) :
    book_session db now user req =
      .ok (inserted_db db user req,
           ⟨db.next_session_id, req.trainer_id, trainer.name, req.session_time, "booked"⟩) := by
  unfold book_session
  rw [if_neg (by simp [hrole])]
  simp only [htr, hu, hact, hexp]
  rw [if_neg (Nat.not_lt.mpr he), if_neg (Nat.not_lt.mpr hfut)]
  rw [if_neg (by simp [hmin]), hconf]
  rfl

theorem book_session_conflict
    {db : Db} {now : Nat} {user : AuthUser} {req : SessionRequest}
    {trainer : Trainers} {db_user : Users} {e : Nat} {c : Sessions}
    (hrole : user.role = UserRole_CLIENT)
    (htr : db.trainers.find? (fun t => t.id == req.trainer_id) = some trainer)
    (hu : db.users.find? (fun u => u.id == user.id) = some db_user)
    (hact : db_user.subscription_active = true)
    (hexp : db_user.subscription_expires_at = some e)
    (he : now ≤ e)
    (hfut : now ≤ req.session_time)
    (hmin : dt_minute req.session_time % 15 = 0)
    (hconf : db.sessions.find? (conflict_pred req.trainer_id req.session_time) = some c) :
    book_session db now user req = .error ⟨409, msg_conflict⟩ := by
  unfold book_session
  rw [if_neg (by simp [hrole])]
  simp only [htr, hu, hact, hexp]
  rw [if_neg (Nat.not_lt.mpr he), if_neg (Nat.not_lt.mpr hfut)]
  rw [if_neg (by simp [hmin]), hconf]

/-- Catalog trainer used in concrete instantiations (cf. `seed_data.py`). -/
def trainer0 : Trainers := ⟨1, "Олександр Петренко", "Йога"⟩

/-- A client row with a usable entitlement: active, expiring on day 30
(2592000000000 µs after the epoch). -/
def entitled_client : Users :=
  ⟨1, "frequent_client", "client1@example.com", "client",
   some "month_classic", some 2592000000000, true⟩

/-- A client row that never purchased: inactive, no expiry stored. -/
def fresh_client : Users :=
  ⟨1, "new_client_one", "client2@example.com", "client", none, none, false⟩

/-- The identity with which the entitled client calls the endpoints. -/
def auth_client1 : AuthUser := ⟨1, "client"⟩

/-- Store with one trainer and one entitled client and no sessions. -/
def db_C1 : Db := ⟨[entitled_client], [trainer0], [], [], [], [], 1⟩

/-- C1: in every state satisfying the no-double-booking invariant (with
session times quantized, invariant 1), `book_session` preserves the
invariant: it returns `Conflict` (creating nothing) whenever a booked
session of the same trainer lies in `[t, t+15min)`, and otherwise creates
exactly one new booked session, the invariant still holding afterwards. -/
theorem claim_C1_no_double_booking
    (db : Db) (now : Nat) (user : AuthUser) (req : SessionRequest)
    (trainer : Trainers) (db_user : Users) (e : Nat)
    (hq : sessions_quantized db) (hinv : no_double_booking db)
    (hrole : user.role = UserRole_CLIENT)
    (htr : db.trainers.find? (fun t => t.id == req.trainer_id) = some trainer)
    (hu : db.users.find? (fun u => u.id == user.id) = some db_user)
    (hact : db_user.subscription_active = true)
    (hexp : db_user.subscription_expires_at = some e)
    (he : now ≤ e)
    (hfut : now ≤ req.session_time)
    (hquant : req.session_time % 900000000 = 0) :
    ((∃ s ∈ db.sessions, conflict_pred req.trainer_id req.session_time s = true) →
        book_session db now user req = .error ⟨409, msg_conflict⟩) ∧
    ((∀ s ∈ db.sessions, conflict_pred req.trainer_id req.session_time s = false) →
        book_session db now user req =
          .ok (inserted_db db user req,
               ⟨db.next_session_id, req.trainer_id, trainer.name, req.session_time, "booked"⟩) ∧
        no_double_booking (inserted_db db user req) ∧
        sessions_quantized (inserted_db db user req)) := by
  have hmin := quantized_minute hquant
  constructor
  · intro hex
    have hsome : (db.sessions.find? (conflict_pred req.trainer_id req.session_time)).isSome :=
      List.find?_isSome.mpr hex
    obtain ⟨c, hc⟩ := Option.isSome_iff_exists.mp hsome
    exact book_session_conflict hrole htr hu hact hexp he hfut hmin hc
  · intro hall
    have hnone : db.sessions.find? (conflict_pred req.trainer_id req.session_time) = none :=
      List.find?_eq_none.mpr (fun s hs => by simp [hall s hs])
    refine ⟨book_session_insert hrole htr hu hact hexp he hfut hmin hnone, ?_, ?_⟩
    · intro tr x
      have hexpand : booked_in_window (inserted_db db user req) tr x =
          booked_in_window db tr x ++
            List.filter (window_pred tr x) [inserted_session db user req] := by
        simp only [booked_in_window, inserted_db, List.filter_append]
      rw [hexpand]
      cases hwin : window_pred tr x (inserted_session db user req) with
      | false =>
        rw [List.filter_cons, hwin]
        simpa using hinv tr x
      | true =>
        obtain ⟨htrw, _, hx1, hx2⟩ := window_pred_iff.mp hwin
        simp only [inserted_session] at htrw hx1 hx2
        have hempty : booked_in_window db tr x = [] := by
          rw [booked_in_window, List.filter_eq_nil_iff]
          intro s hs habs
          obtain ⟨hstr, hsb, hsx1, hsx2⟩ := window_pred_iff.mp habs
          have hseq : s.session_time = req.session_time :=
            quantized_window_eq (hq s hs) hquant hsx1 hsx2 hx1 hx2
          have hcp : conflict_pred req.trainer_id req.session_time s = true := by
            rw [conflict_pred_iff]
            refine ⟨?_, ?_, ?_, hsb⟩
            · rw [hstr, ← htrw]
            · rw [hseq]
            · rw [hseq]; omega
          rw [hall s hs] at hcp
          exact Bool.false_ne_true hcp
        rw [hempty, List.nil_append, List.filter_cons, hwin]
        simp
    · intro s hs
      simp only [inserted_db, List.mem_append, List.mem_singleton] at hs
      rcases hs with hs | hs
      · exact hq s hs
      · subst hs
        simpa [inserted_session] using hquant

/-- Witness for C1: on a concrete conflict-free store the booking at day 1,
10:00 succeeds and both invariants hold afterwards. -/
theorem claim_C1_witness :
    book_session db_C1 86400000000 auth_client1 ⟨1, 122400000000⟩ =
      .ok (inserted_db db_C1 auth_client1 ⟨1, 122400000000⟩,
           ⟨1, 1, "Олександр Петренко", 122400000000, "booked"⟩) ∧
    no_double_booking (inserted_db db_C1 auth_client1 ⟨1, 122400000000⟩) ∧
    sessions_quantized (inserted_db db_C1 auth_client1 ⟨1, 122400000000⟩) :=
  (claim_C1_no_double_booking db_C1 86400000000 auth_client1 ⟨1, 122400000000⟩
      trainer0 entitled_client 2592000000000
      (by intro s hs; simp [db_C1] at hs)
      (by intro tr x; simp [booked_in_window, db_C1])
      rfl rfl rfl rfl rfl (by decide) (by decide) (by decide)).2
    (by decide)

/-- Store with one trainer and one never-subscribed client, no sessions. -/
def db_C3 : Db := ⟨[fresh_client], [trainer0], [], [], [], [], 1⟩

/-- Counterexample to C3: at `now` = day 1, a request for day 0 10:00 (a
past instant) by a caller with no entitlement is answered with the
no-entitlement error, not the past-instant error the claim requires:
the code checks the entitlement (lines 257-277) before the past check
(line 285). -/
theorem claim_C3_counterexample :
    (36000000000 : Nat) < 86400000000 ∧
    book_session db_C3 86400000000 auth_client1 ⟨1, 36000000000⟩ =
      .error ⟨400, msg_no_subscription⟩ ∧
    msg_no_subscription ≠ msg_past := by
  refine ⟨by decide, by decide, by decide⟩

/-- C3 as amended: `book_session` short-circuits in the source's order —
(1) role else 403, (2) trainer else 404, (3) entitlement missing else 400
no-subscription, (4) entitlement expired else 400 expired, (5) past
instant else 400, (6) 15-minute quantization else 400, (7) slot conflict
else 409, and otherwise inserts the booked session.  In particular a past
instant with no entitlement yields the entitlement error of step 3. -/
theorem claim_C3_amended
    (db : Db) (now : Nat) (user : AuthUser) (req : SessionRequest) (db_user : Users)
    (hu : db.users.find? (fun u => u.id == user.id) = some db_user) :
    (user.role ≠ UserRole_CLIENT →
        book_session db now user req = .error ⟨403, msg_forbidden⟩) ∧
    (user.role = UserRole_CLIENT →
      db.trainers.find? (fun t => t.id == req.trainer_id) = none →
        book_session db now user req = .error ⟨404, msg_trainer_not_found⟩) ∧
    (∀ trainer, user.role = UserRole_CLIENT →
      db.trainers.find? (fun t => t.id == req.trainer_id) = some trainer →
      db_user.subscription_active = false ∨ db_user.subscription_expires_at = none →
        book_session db now user req = .error ⟨400, msg_no_subscription⟩) ∧
    (∀ trainer e, user.role = UserRole_CLIENT →
      db.trainers.find? (fun t => t.id == req.trainer_id) = some trainer →
      db_user.subscription_active = true →
      db_user.subscription_expires_at = some e →
      e < now →
        book_session db now user req = .error ⟨400, msg_expired⟩) ∧
    (∀ trainer e, user.role = UserRole_CLIENT →
      db.trainers.find? (fun t => t.id == req.trainer_id) = some trainer →
      db_user.subscription_active = true →
      db_user.subscription_expires_at = some e →
      now ≤ e →
      req.session_time < now →
        book_session db now user req = .error ⟨400, msg_past⟩) ∧
    (∀ trainer e, user.role = UserRole_CLIENT →
      db.trainers.find? (fun t => t.id == req.trainer_id) = some trainer →
      db_user.subscription_active = true →
      db_user.subscription_expires_at = some e →
      now ≤ e →
      now ≤ req.session_time →
      dt_minute req.session_time % 15 ≠ 0 →
        book_session db now user req = .error ⟨400, msg_quantize⟩) ∧
    (∀ trainer e c, user.role = UserRole_CLIENT →
      db.trainers.find? (fun t => t.id == req.trainer_id) = some trainer →
      db_user.subscription_active = true →
      db_user.subscription_expires_at = some e →
      now ≤ e →
      now ≤ req.session_time →
      dt_minute req.session_time % 15 = 0 →
      db.sessions.find? (conflict_pred req.trainer_id req.session_time) = some c →
        book_session db now user req = .error ⟨409, msg_conflict⟩) ∧
    (∀ trainer e, user.role = UserRole_CLIENT →
      db.trainers.find? (fun t => t.id == req.trainer_id) = some trainer →
      db_user.subscription_active = true →
      db_user.subscription_expires_at = some e →
      now ≤ e →
      now ≤ req.session_time →
      dt_minute req.session_time % 15 = 0 →
      db.sessions.find? (conflict_pred req.trainer_id req.session_time) = none →
        book_session db now user req =
          .ok (inserted_db db user req,
               ⟨db.next_session_id, req.trainer_id, trainer.name,
                req.session_time, "booked"⟩)) := by
  refine ⟨?_, ?_, ?_, ?_, ?_, ?_, ?_, ?_⟩
  · intro h
    unfold book_session
    rw [if_pos h]
  · intro h1 h2
    unfold book_session
    rw [if_neg (by simp [h1])]
    simp only [h2]
  · intro trainer h1 h2 h3
    unfold book_session
    rw [if_neg (by simp [h1])]
    simp only [h2, hu]
    rcases h3 with h3 | h3
    · simp only [h3]
    · cases hact : db_user.subscription_active <;> simp only [h3]
  · intro trainer e h1 h2 h3 h4 h5
    unfold book_session
    rw [if_neg (by simp [h1])]
    simp only [h2, hu, h3, h4]
    rw [if_pos h5]
  · intro trainer e h1 h2 h3 h4 h5 h6
    unfold book_session
    rw [if_neg (by simp [h1])]
    simp only [h2, hu, h3, h4]
    rw [if_neg (Nat.not_lt.mpr h5), if_pos h6]
  · intro trainer e h1 h2 h3 h4 h5 h6 h7
    unfold book_session
    rw [if_neg (by simp [h1])]
    simp only [h2, hu, h3, h4]
    rw [if_neg (Nat.not_lt.mpr h5), if_neg (Nat.not_lt.mpr h6), if_pos h7]
  · intro trainer e c h1 h2 h3 h4 h5 h6 h7 h8
    exact book_session_conflict h1 h2 hu h3 h4 h5 h6 h7 h8
  · intro trainer e h1 h2 h3 h4 h5 h6 h7 h8
    exact book_session_insert h1 h2 hu h3 h4 h5 h6 h7 h8

/-- Witness for the amended C3: concrete instantiation on the
no-subscription store; the past-instant request with no entitlement takes
the step-3 branch. -/
theorem claim_C3_amended_witness :
    book_session db_C3 86400000000 auth_client1 ⟨1, 36000000000⟩ =
      .error ⟨400, msg_no_subscription⟩ :=
  (claim_C3_amended db_C3 86400000000 auth_client1 ⟨1, 36000000000⟩ fresh_client rfl).2.2.1
    trainer0 rfl rfl (Or.inl rfl)

/-- C4, failing input: day 1 10:00:30 (minute on the boundary, seconds 30).
The pydantic validator silently zeroes the seconds instead of rejecting,
and the endpoint then books the rounded instant 10:00:00 — the claim
says the call must fail and no rounded session may be created.  The spec
itself (§9) flags this silent rounding in the source as the bug. -/
theorem claim_C4_code_bug :
    dt_minute 122430000000 % 15 = 0 ∧
    dt_second 122430000000 = 30 ∧
    validate_session_time 122430000000 = .ok 122400000000 ∧
    (122400000000 : Nat) ≠ 122430000000 ∧
    book_session_endpoint db_C1 86400000000 auth_client1 1 122430000000 =
      .ok (inserted_db db_C1 auth_client1 ⟨1, 122400000000⟩,
           ⟨1, 1, "Олександр Петренко", 122400000000, "booked"⟩) := by
  refine ⟨by decide, by decide, by decide, by decide, by decide⟩

/-- Counterexample to C5: an entitlement whose `expires_at` equals `now`
(so NOT strictly in the future) still passes the entitlement gate — the
code rejects only `expires_at < now` (`client.py` line 273) — and the
booking succeeds. -/
theorem claim_C5_counterexample :
    entitled_client.subscription_active = true ∧
    entitled_client.subscription_expires_at = some 2592000000000 ∧
    ¬ (2592000000000 : Nat) > 2592000000000 ∧
    book_session db_C1 2592000000000 auth_client1 ⟨1, 2592000000000⟩ =
      .ok (inserted_db db_C1 auth_client1 ⟨1, 2592000000000⟩,
           ⟨1, 1, "Олександр Петренко", 2592000000000, "booked"⟩) := by
  refine ⟨rfl, rfl, by decide, by decide⟩

/-- C5 as amended: the entitlement gate passes iff `active == true` and
`expires_at` exists with `expires_at ≥ now` (the code rejects only
`expires_at < now`, so an expiry equal to `now` is still usable), and the
two failure causes carry distinct `InvalidInput` messages: a missing
entitlement gets the no-subscription message, an expired one the expired
message. -/
theorem claim_C5_amended
    (db : Db) (now : Nat) (user : AuthUser) (req : SessionRequest)
    (trainer : Trainers) (db_user : Users)
    (hrole : user.role = UserRole_CLIENT)
    (htr : db.trainers.find? (fun t => t.id == req.trainer_id) = some trainer)
    (hu : db.users.find? (fun u => u.id == user.id) = some db_user) :
    (db_user.subscription_active = false ∨ db_user.subscription_expires_at = none →
        book_session db now user req = .error ⟨400, msg_no_subscription⟩) ∧
    (∀ e, db_user.subscription_active = true →
      db_user.subscription_expires_at = some e →
      e < now →
        book_session db now user req = .error ⟨400, msg_expired⟩) ∧
    (∀ e, db_user.subscription_active = true →
      db_user.subscription_expires_at = some e →
      now ≤ e →
        book_session db now user req ≠ .error ⟨400, msg_no_subscription⟩ ∧
        book_session db now user req ≠ .error ⟨400, msg_expired⟩) ∧
    msg_no_subscription ≠ msg_expired := by
  refine ⟨?_, ?_, ?_, by decide⟩
  · intro h3
    unfold book_session
    rw [if_neg (by simp [hrole])]
    simp only [htr, hu]
    rcases h3 with h3 | h3
    · simp only [h3]
    · cases hact : db_user.subscription_active <;> simp only [h3]
  · intro e hact hexp h5
    unfold book_session
    rw [if_neg (by simp [hrole])]
    simp only [htr, hu, hact, hexp]
    rw [if_pos h5]
  · intro e hact hexp hnow
    constructor
    · unfold book_session
      rw [if_neg (by simp [hrole])]
      simp only [htr, hu, hact, hexp]
      rw [if_neg (Nat.not_lt.mpr hnow)]
      split_ifs
      · decide
      · decide
      · cases hc : db.sessions.find? (conflict_pred req.trainer_id req.session_time) <;>
          simp [hc, msg_conflict, msg_no_subscription]
    · unfold book_session
      rw [if_neg (by simp [hrole])]
      simp only [htr, hu, hact, hexp]
      rw [if_neg (Nat.not_lt.mpr hnow)]
      split_ifs
      · decide
      · decide
      · cases hc : db.sessions.find? (conflict_pred req.trainer_id req.session_time) <;>
          simp [hc, msg_conflict, msg_expired]

/-- Witness for the amended C5: the entitled client's booking at day 1,
10:00 produces neither entitlement error. -/
theorem claim_C5_amended_witness :
    book_session db_C1 86400000000 auth_client1 ⟨1, 122400000000⟩ ≠
      .error ⟨400, msg_no_subscription⟩ ∧
    book_session db_C1 86400000000 auth_client1 ⟨1, 122400000000⟩ ≠
      .error ⟨400, msg_expired⟩ :=
  (claim_C5_amended db_C1 86400000000 auth_client1 ⟨1, 122400000000⟩ trainer0
      entitled_client rfl rfl rfl).2.2.1 2592000000000 rfl rfl (by decide)

/-- The `base` of the stacking rule exactly as the claim words it: the old
`expires_at` when the entitlement is active and the old `expires_at` is
strictly after `now`, and `now` otherwise (including a never-subscribed
or inactive user).  Stated from the spec for comparison against
`purchase_subscription`. -/
def entitlement_base (u : Users) (now : Nat) : Nat :=
  match u.subscription_active, u.subscription_expires_at with
  | true, some e => if now < e then e else now
  | _, _ => now

/-- C6: for every user and known plan of duration `D` days,
`purchase_subscription` stores and returns
`expires_at = base + D days` with `base` as in `entitlement_base`, sets
the entitlement type to the plan's type and `active` to `true`, and
returns the new `subscription_type` and `expires_at`. -/
theorem claim_C6_stacking
    (db : Db) (now : Nat) (user : AuthUser) (req : PurchaseRequest)
    (plan : Subscriptions) (db_user : Users)
    (hrole : user.role = UserRole_CLIENT)
    (hplan : db.subscriptions.find? (fun s => s.id == req.subscription_id) = some plan)
    (hu : db.users.find? (fun u => u.id == user.id) = some db_user) :
    ∃ db',
      purchase_subscription db now user req =
        .ok (db', ⟨"Абонемент успішно придбано", some plan.subscription_type,
                   some (entitlement_base db_user now + plan.duration_days * 86400000000)⟩) ∧
      db'.users.find? (fun u => u.id == user.id) =
        some { db_user with
                 subscription_type := some plan.subscription_type,
                 subscription_active := true,
                 subscription_expires_at :=
                   some (entitlement_base db_user now + plan.duration_days * 86400000000) } := by
  have hpx0 := List.find?_some hu
  have hpx : (db_user.id == user.id) = true := hpx0
  unfold purchase_subscription
  rw [if_neg (by simp [hrole])]
  simp only [hplan, hu]
  cases hact : db_user.subscription_active with
  | false =>
    simp only [entitlement_base, hact]
    exact ⟨_, rfl, find?_update_first hu hpx⟩
  | true =>
    cases hexp : db_user.subscription_expires_at with
    | none =>
      simp only [entitlement_base, hact, hexp]
      exact ⟨_, rfl, find?_update_first hu hpx⟩
    | some e =>
      by_cases hlt : now < e
      · simp only [entitlement_base, hact, hexp, if_pos hlt]
        exact ⟨_, rfl, find?_update_first hu hpx⟩
      · simp only [entitlement_base, hact, hexp, if_neg hlt]
        exact ⟨_, rfl, find?_update_first hu hpx⟩

/-- The 30-day plan of `seed_data.py`. -/
def plan_month : Subscriptions := ⟨2, "Місяць Classic", "month_classic", 30⟩

/-- Store with the plan catalog and the entitled client. -/
def db_C6 : Db := ⟨[entitled_client], [trainer0], [plan_month], [], [], [], 1⟩

/-- Witness for C6: at day 1, the client active until day 30 buys the
30-day plan; the new expiry is day 60 (`T + D`, not `now + D`). -/
theorem claim_C6_witness :
    ∃ db',
      purchase_subscription db_C6 86400000000 auth_client1 ⟨2⟩ =
        .ok (db', ⟨"Абонемент успішно придбано", some "month_classic",
                   some 5184000000000⟩) ∧
      db'.users.find? (fun u => u.id == 1) =
        some ⟨1, "frequent_client", "client1@example.com", "client",
              some "month_classic", some 5184000000000, true⟩ :=
  claim_C6_stacking db_C6 86400000000 auth_client1 ⟨2⟩ plan_month entitled_client
    rfl rfl rfl

/-- C7: `complete_session` transitions booked → completed at most once and
appends exactly one visit record: the first call on an owned booked
session succeeds and takes the per-session visit count from 0 to 1, and
every subsequent call on the resulting store fails with the
already-completed `InvalidInput` (an error response mutates nothing, so
the count stays 1). -/
theorem claim_C7_complete_once
    (db : Db) (now : Nat) (user : AuthUser) (session_id : Nat) (session : Sessions)
    (hrole : user.role = UserRole_CLIENT)
    (hfind : db.sessions.find? (fun s => s.id == session_id && s.client_id == user.id) =
      some session)
    (hbooked : session.status = "booked")
    (hcount : (db.visit_history.filter (fun v => v.session_id == session.id)).length = 0) :
    ∃ db',
      complete_session db now user session_id =
        .ok (db', ⟨"Сесія успішно завершена", session.id, true⟩) ∧
      (db'.visit_history.filter (fun v => v.session_id == session.id)).length = 1 ∧
      ∀ now2, complete_session db' now2 user session_id =
        .error ⟨400, msg_already_completed⟩ := by
  have hpx0 := List.find?_some hfind
  have hpx : (session.id == session_id && session.client_id == user.id) = true := hpx0
  unfold complete_session
  rw [if_neg (by simp [hrole])]
  simp only [hfind]
  rw [if_neg (by simp [hbooked])]
  refine ⟨_, rfl, ?_, ?_⟩
  · simp only [List.filter_append, List.length_append, hcount]
    simp
  · intro now2
    rw [if_neg (by simp [hrole])]
    have hupd : (update_first (fun s => s.id == session_id && s.client_id == user.id)
        (fun s => { s with status := "completed" }) db.sessions).find?
        (fun s => s.id == session_id && s.client_id == user.id) =
        some { session with status := "completed" } :=
      find?_update_first hfind hpx
    simp only [hupd]
    simp

/-- A booked session of the entitled client with trainer 1 at day 1 10:00. -/
def booked_session0 : Sessions := ⟨1, 1, 1, 122400000000, "booked"⟩

/-- Store holding the one booked session, no visits yet. -/
def db_C7 : Db := ⟨[entitled_client], [trainer0], [], [booked_session0], [], [], 2⟩

/-- Witness for C7 at the concrete store. -/
theorem claim_C7_witness :
    ∃ db',
      complete_session db_C7 200000000000 auth_client1 1 =
        .ok (db', ⟨"Сесія успішно завершена", 1, true⟩) ∧
      (db'.visit_history.filter (fun v => v.session_id == 1)).length = 1 ∧
      ∀ now2, complete_session db' now2 auth_client1 1 =
        .error ⟨400, msg_already_completed⟩ :=
  claim_C7_complete_once db_C7 200000000000 auth_client1 1 booked_session0
    rfl rfl rfl rfl

/-- C9: the slot generator for hours 9-21 at 15-minute steps yields
exactly 48 `"HH:MM"` labels, strictly increasing in time-of-day order,
every label's time divisible by 15 minutes.  The embedded function is a
pure Lean function (deterministic, no I/O), like the source's. -/
theorem claim_C9_slots :
    (generate_time_slots 9 21).length = 48 ∧
    (generate_time_slots 9 21).Pairwise (fun a b => label_minutes a < label_minutes b) ∧
    ∀ s ∈ generate_time_slots 9 21, label_minutes s % 15 = 0 := by
  refine ⟨by decide, by decide, by decide⟩

/-- A booked session of trainer 1 on day 2 at 10:00 (and nothing on day 1). -/
def next_day_session : Sessions := ⟨1, 1, 1, 208800000000, "booked"⟩

/-- Store whose only booked session is on day 2. -/
def db_C8 : Db := ⟨[entitled_client], [trainer0], [], [next_day_session], [], [], 2⟩

/-- Availability of the labelled slot in a `get_available_slots` response. -/
def slot_available (r : Except HTTPException (List TimeSlotResponse))
    (label : String) : Option Bool :=
  match r with
  | .ok l => (l.find? (fun x => x.time == label)).map (fun x => x.available)
  | .error _ => none

/-- C8, failing input: requesting day 1 for trainer 1 whose only booked
session is on day 2 at 10:00.  No booked session lies in day 1's 10:00
window and that slot is not past, yet the code reports it unavailable:
the query bound `end_of_day + timedelta(days=1)` (line 202) reaches into
the following day, so the day-2 session's time-of-day label marks day 1's
10:00 slot busy — contradicting the claim's availability rule. -/
theorem claim_C8_code_bug :
    (∀ s ∈ db_C8.sessions, window_pred 1 122400000000 s = false) ∧
    ¬ ((122400000000 : Nat) < 86400000000) ∧
    dt_date 208800000000 = 2 ∧
    slot_available (get_available_slots db_C8 86400000000 auth_client1 1 1) "10:00" =
      some false := by
  refine ⟨by decide, by decide, by decide, by decide⟩

/-- C10: `book_session` never consults the slot domain of
`generate_time_slots`: whenever the gates of the endpoint pass (role,
trainer, usable entitlement, future quantized instant, free slot) the
booking is accepted and a booked session at exactly the requested instant
is created — no hypothesis about the time of day is needed.  The witness
books 03:00, a label the availability view never offers. -/
theorem claim_C10_outside_slot_domain
    (db : Db) (now : Nat) (user : AuthUser) (req : SessionRequest)
    (trainer : Trainers) (db_user : Users) (e : Nat)
    (hrole : user.role = UserRole_CLIENT)
    (htr : db.trainers.find? (fun t => t.id == req.trainer_id) = some trainer)
    (hu : db.users.find? (fun u => u.id == user.id) = some db_user)
    (hact : db_user.subscription_active = true)
    (hexp : db_user.subscription_expires_at = some e)
    (he : now ≤ e)
    (hfut : now ≤ req.session_time)
    (hquant : req.session_time % 900000000 = 0)
    (hconf : ∀ s ∈ db.sessions, conflict_pred req.trainer_id req.session_time s = false) :
    book_session db now user req =
      .ok (inserted_db db user req,
           ⟨db.next_session_id, req.trainer_id, trainer.name, req.session_time, "booked"⟩) ∧
    inserted_session db user req ∈ (inserted_db db user req).sessions ∧
    (inserted_session db user req).status = "booked" ∧
    (inserted_session db user req).session_time = req.session_time := by
  have hmin := quantized_minute hquant
  have hnone : db.sessions.find? (conflict_pred req.trainer_id req.session_time) = none :=
    List.find?_eq_none.mpr (fun s hs => by simp [hconf s hs])
  refine ⟨book_session_insert hrole htr hu hact hexp he hfut hmin hnone, ?_, rfl, rfl⟩
  simp [inserted_db]

/-- Witness for C10: day 1 03:00 is outside the 09:00-20:45 slot domain
yet is booked successfully. -/
theorem claim_C10_witness :
    time_label 97200000000 = "03:00" ∧
    "03:00" ∉ generate_time_slots 9 21 ∧
    book_session db_C1 86400000000 auth_client1 ⟨1, 97200000000⟩ =
      .ok (inserted_db db_C1 auth_client1 ⟨1, 97200000000⟩,
           ⟨1, 1, "Олександр Петренко", 97200000000, "booked"⟩) :=
  ⟨by decide, by decide,
   (claim_C10_outside_slot_domain db_C1 86400000000 auth_client1 ⟨1, 97200000000⟩
      trainer0 entitled_client 2592000000000 rfl rfl rfl rfl rfl (by decide) (by decide)
      (by decide) (by decide)).1⟩

/-- A second entitled client, for the concurrent-booking scenario. -/
def entitled_client2 : Users :=
  ⟨2, "second_client1", "client3@example.com", "client",
   some "month_classic", some 2592000000000, true⟩

/-- The identity with which the second client calls the endpoints. -/
def auth_client2 : AuthUser := ⟨2, "client"⟩

/-- Store with two entitled clients, one trainer, no sessions. -/
def db_C2 : Db := ⟨[entitled_client, entitled_client2], [trainer0], [], [], [], [], 1⟩

/-- The read phase of `book_session`'s slot reservation in isolation
(`client.py` lines 300-305): true iff no conflicting booked session is
visible in the snapshot.  The code runs this and the insert as two
separate store operations, with no uniqueness constraint declared on
`sessions` (`models.py` lines 65-73) and no locking, so two concurrent
requests can interleave as check-check-insert-insert. -/
def book_check_passes (db : Db) (trainer_id t : Nat) : Bool :=
  (db.sessions.find? (conflict_pred trainer_id t)).isNone

/-- The write phase of the slot reservation: the insert and commit of the
new booked session (`client.py` lines 317-325), which nothing in the
schema can make fail for a duplicate slot. -/
def book_insert (db : Db) (client_id trainer_id t : Nat) : Db :=
  { db with
      sessions := db.sessions ++ [⟨db.next_session_id, trainer_id, client_id, t, "booked"⟩],
      next_session_id := db.next_session_id + 1 }

/-- C2 fails on the code: from one shared snapshot both concurrent
`book_session` calls for trainer 1 at the same instant succeed (neither
sees a conflict), and the interleaving whose two conflict checks precede
both inserts commits two booked sessions in the same slot — the store
enforces no `(trainer_id, session_time)` uniqueness among booked
sessions, so the second writer does not surface `Conflict`. -/
theorem claim_C2_code_bug :
    book_session db_C2 86400000000 auth_client1 ⟨1, 122400000000⟩ =
      .ok (inserted_db db_C2 auth_client1 ⟨1, 122400000000⟩,
           ⟨1, 1, "Олександр Петренко", 122400000000, "booked"⟩) ∧
    book_session db_C2 86400000000 auth_client2 ⟨1, 122400000000⟩ =
      .ok (inserted_db db_C2 auth_client2 ⟨1, 122400000000⟩,
           ⟨1, 1, "Олександр Петренко", 122400000000, "booked"⟩) ∧
    book_check_passes db_C2 1 122400000000 = true ∧
    (booked_in_window
        (book_insert (book_insert db_C2 1 1 122400000000) 2 1 122400000000)
        1 122400000000).length = 2 ∧
    ¬ no_double_booking
        (book_insert (book_insert db_C2 1 1 122400000000) 2 1 122400000000) := by
  refine ⟨by decide, by decide, by decide, by decide, ?_⟩
  intro h
  exact absurd (h 1 122400000000) (by decide)
